import Mathlib

/-!
Verification development for the `web_recon` repository (file `web_recon.py`).

The program is a linear reconnaissance pipeline: a `WebSecurityRecon` object
holds a target domain, a thread count and a workspace directory, checks a
fixed set of external tools, and then runs nine steps in a fixed order, each
step invoking one external binary (or, for the JavaScript-extraction step,
filtering files locally) and reporting a boolean result.

Modelling conventions:
- the filesystem is an association list from path strings to `FileData`;
  a `FileData` carries both the text-line view of the bytes (what Python
  line iteration and `readline` see, lines given without their trailing
  newline) and the outcome of `json.load` on the same bytes (`none` when
  the bytes are not valid JSON); keeping both views abstract avoids
  embedding a JSON parser;
- external processes are an oracle `Env.exec` mapping an argument vector and
  the current filesystem to a success flag (`false` models the invocation
  raising, e.g. a non-zero exit under `check=True` or a missing binary) and
  the filesystem after the arbitrary writes of the tool;
- the outcome of the `tool -h` probe used by the dependency checker is an
  oracle `Env.toolOutcome` into the three outcomes the code handles:
  success, `CalledProcessError` (non-zero exit) and `FileNotFoundError`;
- console output is collected into `prints` lists; the printed strings
  follow the source up to quoting (quote characters inside messages and the
  dynamic exception text appended to failure diagnostics are elided), and
  the decorative start-up banner is kept as one string;
- `str.strip` and `str.split()[0]` are modelled by `pyStrip` and
  `pySplitHead` over `List Char` (ASCII whitespace); `urllib.parse.urlparse`
  is modelled by `urlparse`, restricted to the `scheme` and `netloc` fields
  the program reads, following the CPython algorithm: an initial
  `scheme:` is split off when the part before the first colon is a
  non-empty run of scheme characters starting with a letter, and `netloc`
  is what follows a leading `//` up to the first of `/`, `?`, `#`.
-/

/-- Boolean test that `pre` is an initial segment of the second list. -/
def headMatches : List Char → List Char → Bool
  | [], _ => true
  | _ :: _, [] => false
  | a :: as, b :: bs => (a = b) && headMatches as bs

/-- Boolean substring test: Python `needle in hay` on strings, viewed as
character lists. -/
def containsSub (needle : List Char) : List Char → Bool
  | [] => needle.isEmpty
  | c :: cs => headMatches needle (c :: cs) || containsSub needle cs

/-- Drop the maximal run of characters satisfying `q` from the end of a
list. -/
def dropTrailing (q : Char → Bool) : List Char → List Char
  | [] => []
  | c :: cs =>
    match dropTrailing q cs with
    | [] => if q c then [] else [c]
    | r => c :: r

/-- Python `str.strip()`: remove leading and trailing whitespace. -/
def pyStrip (s : String) : String :=
  ⟨dropTrailing Char.isWhitespace (s.data.dropWhile Char.isWhitespace)⟩

/-- Python `str.split()[0]` for a string with at least one non-whitespace
character: the first maximal whitespace-free word. On an all-whitespace
string it returns the empty string (the program only uses it after checking
that the stripped string is non-empty). -/
def pySplitHead (s : String) : String :=
  ⟨(s.data.dropWhile Char.isWhitespace).takeWhile (fun c => !c.isWhitespace)⟩

/-- Characters allowed in a URL scheme after the initial letter, as in
CPython `urllib.parse`. -/
def schemeChar (c : Char) : Bool :=
  c.isAlphanum || c = '+' || c = '-' || c = '.'

/-- Characters that end the network-location part of a URL. -/
def netlocEnd (c : Char) : Bool :=
  c = '/' || c = '?' || c = '#'

/-- Split a character list at its first colon: `some (before, after)` when a
colon occurs, `none` otherwise. -/
def splitAtColon : List Char → Option (List Char × List Char)
  | [] => none
  | c :: cs =>
    if c = ':' then some ([], cs)
    else
      match splitAtColon cs with
      | some (pre, post) => some (c :: pre, post)
      | none => none

/-- Network location of a URL remainder: what follows a leading `//` up to
the first of `/`, `?`, `#`; empty when the remainder does not start with
`//`. -/
def netlocOf : List Char → List Char
  | '/' :: '/' :: rest => rest.takeWhile (fun c => !netlocEnd c)
  | _ => []

/-- Scheme and network location of a parsed URL, the only two fields of
`urllib.parse.urlparse` the program reads. -/
structure UrlParts where
  scheme : String
  netloc : String
deriving DecidableEq, Repr

/-- Model of `urllib.parse.urlparse` restricted to `scheme` and `netloc`,
following the CPython algorithm. -/
def urlparse (url : String) : UrlParts :=
  match splitAtColon url.data with
  | some (pre, post) =>
    if (!pre.isEmpty) && (pre.headD ' ').isAlpha && pre.all schemeChar then
      { scheme := ⟨pre.map Char.toLower⟩, netloc := ⟨netlocOf post⟩ }
    else
      { scheme := "", netloc := ⟨netlocOf url.data⟩ }
  | none => { scheme := "", netloc := ⟨netlocOf url.data⟩ }

/-- Fuzz-target construction of `run_directory_bruteforce` (lines 229-230 of
the source): parse the first whitespace-separated token of the alive-host
first line and rebuild `scheme://netloc/FUZZ`. -/
def fuzzTarget (first_url : String) : String :=
  let parsed := urlparse (pySplitHead first_url)
  parsed.scheme ++ "://" ++ parsed.netloc ++ "/FUZZ"

/-- Model of a JSON value, at the granularity the program observes: an array
is kept as its length, an object as its field list (keys unique, as in a
parsed JSON document), a string as itself, and every other value collapses
to `prim`. -/
inductive JVal where
  | arr (n : Nat)
  | obj (fields : List (String × JVal))
  | str (s : String)
  | prim

/-- Python `len` on a JSON value: defined on arrays, objects and strings,
raising (hence `none`) on numbers, booleans and null. -/
def jsonLen : JVal → Option Nat
  | .arr n => some n
  | .obj fields => some fields.length
  | .str s => some s.length
  | .prim => none

/-- Lookup of a key in a JSON object field list. -/
def lookupJson (k : String) : List (String × JVal) → Option JVal
  | [] => none
  | (k2, v) :: rest => if k2 = k then some v else lookupJson k rest

/-- Contents of one file: the text-line view (lines without their trailing
newline) and the `json.load` view of the same bytes (`none` when the bytes
are not valid JSON). -/
structure FileData where
  lines : List String
  json? : Option JVal := none

/-- Filesystem model: an association list from paths to contents; a write
shadows earlier entries for the same path. -/
def FS : Type := List (String × FileData)

/-- Read a file: `none` models a missing file. -/
def FS.read (fs : FS) (p : String) : Option FileData :=
  match fs with
  | [] => none
  | (q, d) :: rest => if q = p then some d else FS.read rest p

/-- Write (create or truncate-and-write) a file. -/
def FS.write (fs : FS) (p : String) (d : FileData) : FS :=
  (p, d) :: fs

/-- Outcome of the `subprocess.run([tool, "-h"], ..., check=True)` probe of
the dependency checker, at the granularity of its `except` clause. -/
inductive InvokeOutcome where
  | success
  | calledProcessError
  | fileNotFound
deriving DecidableEq, Repr

/-- Environment of a run: the outcome of each `tool -h` probe, and the
behaviour of each external pipeline process (success flag plus the
filesystem after the arbitrary writes of the tool). -/
structure Env where
  toolOutcome : String → InvokeOutcome
  exec : List String → FS → Bool × FS

/-- Configuration object of the script (`WebSecurityRecon.__init__`). -/
structure WebSecurityRecon where
  domain : String
  output_dir : String := "web_recon"
  threads : Nat := 10

/-- Path of the subdomain list file. -/
def WebSecurityRecon.subdomain_file (r : WebSecurityRecon) : String :=
  r.output_dir ++ "/subdomains.txt"

/-- Path of the alive-host list file. -/
def WebSecurityRecon.alive_file (r : WebSecurityRecon) : String :=
  r.output_dir ++ "/alive.txt"

/-- Path of the wayback URL file. -/
def WebSecurityRecon.wayback_file (r : WebSecurityRecon) : String :=
  r.output_dir ++ "/waybackurls.txt"

/-- Path of the nuclei results file. -/
def WebSecurityRecon.nuclei_file (r : WebSecurityRecon) : String :=
  r.output_dir ++ "/nuclei_results.json"

/-- Path of the katana crawl-output file. -/
def WebSecurityRecon.katana_file (r : WebSecurityRecon) : String :=
  r.output_dir ++ "/katana_crawl.txt"

/-- Path of the derived JavaScript-URL list file. -/
def WebSecurityRecon.js_files (r : WebSecurityRecon) : String :=
  r.output_dir ++ "/js_files.txt"

/-- Path of the gau URL file. -/
def WebSecurityRecon.gau_file (r : WebSecurityRecon) : String :=
  r.output_dir ++ "/gau_urls.txt"

/-- Path of the subdomain-takeover results file. -/
def WebSecurityRecon.subdomain_takeover_file (r : WebSecurityRecon) : String :=
  r.output_dir ++ "/subdomain_takeover.txt"

/-- Path of the ffuf results file. -/
def WebSecurityRecon.ffuf_file (r : WebSecurityRecon) : String :=
  r.output_dir ++ "/ffuf_results.json"

/-- Path of the generated wordlist file (local `wordlist` variable of
`run_directory_bruteforce`). -/
def wordlistFile (r : WebSecurityRecon) : String :=
  r.output_dir ++ "/common_dirs.txt"

/-- Per-tool probe of `check_tool_installed`: `True` exactly when the help
invocation succeeds; `CalledProcessError` and `FileNotFoundError` are caught
and mapped to `False`. -/
def check_tool_installed (env : Env) (tool_name : String) : Bool :=
  match env.toolOutcome tool_name with
  | .success => true
  | .calledProcessError => false
  | .fileNotFound => false

/-- Required tools and their installation hints (`tools` dict of
`check_dependencies`, in insertion order). -/
def toolsTable : List (String × String) :=
  [("subfinder", "go install -v github.com/projectdiscovery/subfinder/v2/cmd/subfinder@latest"),
   ("httpx", "go install -v github.com/projectdiscovery/httpx/cmd/httpx@latest"),
   ("waybackurls", "go install github.com/tomnomnom/waybackurls@latest"),
   ("nuclei", "go install -v github.com/projectdiscovery/nuclei/v3/cmd/nuclei@latest"),
   ("katana", "go install github.com/projectdiscovery/katana/cmd/katana@latest"),
   ("gau", "go install github.com/lc/gau/v2/cmd/gau@latest"),
   ("ffuf", "go install github.com/ffuf/ffuf/v2@latest"),
   ("subjack", "go install github.com/haccer/subjack@latest")]

/-- Dependency checker (`check_dependencies`): probe every tool, print a
status line per tool and a hint list for the missing ones; return `True`
exactly when no tool is missing. -/
def check_dependencies (env : Env) : Bool × List String :=
  let missing := toolsTable.filter (fun t => !check_tool_installed env t.1)
  let per := toolsTable.map (fun t =>
    if check_tool_installed env t.1 then "    ✓ " ++ t.1 ++ " is installed"
    else "    ✗ " ++ t.1 ++ " is missing")
  let hints :=
    if missing.isEmpty then []
    else "\n[!] Missing tools:" :: missing.map (fun t => t.1 ++ ": " ++ t.2)
  (missing.isEmpty, "[+] Checking dependencies..." :: per ++ hints)

/-- Observable outcome of one pipeline step: reported result, external
commands invoked, files written by the runner itself (in order), resulting
filesystem, and console output. -/
structure StepOut where
  ok : Bool
  calls : List (List String)
  writes : List (String × FileData)
  fs : FS
  prints : List String

/-- Argument vector of the subfinder invocation. -/
def subfinderCmd (r : WebSecurityRecon) : List String :=
  ["subfinder", "-d", r.domain, "-o", r.subdomain_file, "-all", "-silent"]

/-- Step 1 (`run_subfinder`): enumerate subdomains into the subdomain
file. -/
def run_subfinder (r : WebSecurityRecon) (env : Env) (fs : FS) : StepOut :=
  let header := "\n[1/9] Running subfinder on " ++ r.domain
  let res := env.exec (subfinderCmd r) fs
  { ok := res.1, calls := [subfinderCmd r], writes := [], fs := res.2,
    prints := [header,
      if res.1 then "    ✓ Subdomain enumeration complete" else "    ✗ subfinder failed"] }

/-- Argument vector of the httpx invocation. -/
def httpxCmd (r : WebSecurityRecon) : List String :=
  ["httpx", "-l", r.subdomain_file, "-o", r.alive_file,
   "-title", "-tech-detect", "-status-code", "-content-length",
   "-silent", "-threads", toString r.threads]

/-- Step 2 (`run_httpx`): probe liveness of the enumerated subdomains;
precondition: the subdomain file exists. -/
def run_httpx (r : WebSecurityRecon) (env : Env) (fs : FS) : StepOut :=
  let header := "\n[2/9] Running httpx"
  match fs.read r.subdomain_file with
  | none =>
    { ok := false, calls := [], writes := [], fs := fs,
      prints := [header, "    ✗ subdomains.txt not found"] }
  | some _ =>
    let res := env.exec (httpxCmd r) fs
    { ok := res.1, calls := [httpxCmd r], writes := [], fs := res.2,
      prints := [header,
        if res.1 then "    ✓ Alive domains identified" else "    ✗ httpx failed"] }

/-- Step 3 (`run_waybackurls`): open (truncate) the wayback file, then run
the tool with its standard output redirected into it. -/
def run_waybackurls (r : WebSecurityRecon) (env : Env) (fs : FS) : StepOut :=
  let header := "\n[3/9] Running waybackurls"
  let fs1 := fs.write r.wayback_file { lines := [] }
  let res := env.exec ["waybackurls", r.domain] fs1
  { ok := res.1, calls := [["waybackurls", r.domain]],
    writes := [(r.wayback_file, { lines := [] })], fs := res.2,
    prints := [header,
      if res.1 then "    ✓ Wayback URLs collected" else "    ✗ waybackurls failed"] }

/-- Step 4 (`run_gau`): collect URLs from the second archive source. -/
def run_gau (r : WebSecurityRecon) (env : Env) (fs : FS) : StepOut :=
  let header := "\n[4/9] Running gau"
  let cmd := ["gau", "--threads", toString r.threads, "--o", r.gau_file, r.domain]
  let res := env.exec cmd fs
  { ok := res.1, calls := [cmd], writes := [], fs := res.2,
    prints := [header,
      if res.1 then "    ✓ gau URLs collected" else "    ✗ gau failed"] }

/-- Argument vector of the katana invocation. -/
def katanaCmd (r : WebSecurityRecon) : List String :=
  ["katana", "-list", r.alive_file, "-o", r.katana_file,
   "-d", "3", "-c", toString r.threads, "-silent", "-js-crawl"]

/-- Step 5 (`run_katana_crawl`): crawl the alive hosts; precondition: the
alive file exists. -/
def run_katana_crawl (r : WebSecurityRecon) (env : Env) (fs : FS) : StepOut :=
  let header := "\n[5/9] Running katana"
  match fs.read r.alive_file with
  | none =>
    { ok := false, calls := [], writes := [], fs := fs,
      prints := [header, "    ✗ alive.txt not found"] }
  | some _ =>
    let res := env.exec (katanaCmd r) fs
    { ok := res.1, calls := [katanaCmd r], writes := [], fs := res.2,
      prints := [header,
        if res.1 then "    ✓ Katana crawl complete" else "    ✗ katana failed"] }

/-- JavaScript-marker test of `extract_js_files`: Python
`'.js' in line or '/js/' in line`. -/
def hasJsMarker (line : String) : Bool :=
  containsSub ".js".data line.data || containsSub "/js/".data line.data

/-- Stripped matching lines of one source file (`extract_js_files` loop
body: lines whose raw text contains a JavaScript marker, added to the set
stripped). -/
def jsMatches (ls : List String) : List String :=
  (ls.filter hasJsMarker).map pyStrip

/-- Collected JavaScript-URL set of `extract_js_files`, as a duplicate-free
list: matching stripped lines of the katana crawl file and of the wayback
file, each contributing only when that file exists. -/
def jsUrlSet (katana wayback : Option (List String)) : List String :=
  ((match katana with | some ls => jsMatches ls | none => []) ++
   (match wayback with | some ls => jsMatches ls | none => [])).dedup

/-- Core of `extract_js_files`: the sorted, deduplicated JavaScript-URL list
to be written, or `none` when the collected set is empty (reported
failure, nothing written). -/
def extract_js_files (katana wayback : Option (List String)) : Option (List String) :=
  if (jsUrlSet katana wayback).isEmpty then none
  else some ((jsUrlSet katana wayback).insertionSort (fun a b => a ≤ b))

/-- Step 6 (`extract_js_files` as a pipeline step): filter the two source
files, and on a non-empty result write the sorted list to the JS file. -/
def run_extract_js (r : WebSecurityRecon) (_env : Env) (fs : FS) : StepOut :=
  let header := "\n[6/9] Extracting JS files"
  match extract_js_files ((fs.read r.katana_file).map FileData.lines)
      ((fs.read r.wayback_file).map FileData.lines) with
  | some urls =>
    { ok := true, calls := [], writes := [(r.js_files, { lines := urls })],
      fs := fs.write r.js_files { lines := urls },
      prints := [header,
        "    ✓ Found " ++ toString urls.length ++ " JavaScript files"] }
  | none =>
    { ok := false, calls := [], writes := [], fs := fs,
      prints := [header, "    ✗ No JS files found"] }

/-- Argument vector of the nuclei invocation. -/
def nucleiCmd (r : WebSecurityRecon) : List String :=
  ["nuclei", "-l", r.alive_file, "-o", r.nuclei_file,
   "-json", "-c", toString r.threads, "-severity", "critical,high,medium", "-silent"]

/-- Step 7 (`run_nuclei_scan`): vulnerability scan over the alive hosts;
precondition: the alive file exists. -/
def run_nuclei_scan (r : WebSecurityRecon) (env : Env) (fs : FS) : StepOut :=
  let header := "\n[7/9] Running nuclei scan"
  match fs.read r.alive_file with
  | none =>
    { ok := false, calls := [], writes := [], fs := fs,
      prints := [header, "    ✗ alive.txt not found"] }
  | some _ =>
    let res := env.exec (nucleiCmd r) fs
    { ok := res.1, calls := [nucleiCmd r], writes := [], fs := res.2,
      prints := [header,
        if res.1 then "    ✓ Nuclei scan complete" else "    ✗ nuclei failed"] }

/-- Argument vector of the subjack invocation. -/
def subjackCmd (r : WebSecurityRecon) : List String :=
  ["subjack", "-w", r.subdomain_file, "-o", r.subdomain_takeover_file,
   "-ssl", "-c", toString r.threads]

/-- Step 8 (`run_subdomain_takeover`): takeover check over the raw subdomain
list; precondition: the subdomain file exists. -/
def run_subdomain_takeover (r : WebSecurityRecon) (env : Env) (fs : FS) : StepOut :=
  let header := "\n[8/9] Checking for subdomain takeover"
  match fs.read r.subdomain_file with
  | none =>
    { ok := false, calls := [], writes := [], fs := fs,
      prints := [header, "    ✗ subdomains.txt not found"] }
  | some _ =>
    let res := env.exec (subjackCmd r) fs
    { ok := res.1, calls := [subjackCmd r], writes := [], fs := res.2,
      prints := [header,
        if res.1 then "    ✓ Subdomain takeover check complete" else "    ✗ subjack failed"] }

/-- Built-in wordlist of `run_directory_bruteforce` (`common_dirs`). -/
def common_dirs : List String :=
  ["admin", "api", "login", "uploads", "img", "js", "css",
   "config", ".git", ".env", "dashboard", "assets"]

/-- Argument vector of the ffuf invocation for a given fuzz target. -/
def ffufCmd (r : WebSecurityRecon) (base_url : String) : List String :=
  ["ffuf", "-u", base_url, "-w", wordlistFile r, "-o", r.ffuf_file,
   "-of", "json", "-t", toString r.threads,
   "-mc", "200,204,301,302,307,403", "-fs", "0"]

/-- Result-counting of `run_directory_bruteforce` (lines 244-247): `json.load`
the ffuf output, `results.get("results", [])`, `len` of that. `none` models
an exception on that path (unparsable JSON, a non-object document, or a
`results` value without a length), which the enclosing handler turns into a
reported failure. -/
def jsonResultsCount : Option JVal → Option Nat
  | none => none
  | some (.obj fields) =>
    match lookupJson "results" fields with
    | none => some 0
    | some v => jsonLen v
  | some _ => none

/-- Step 9 (`run_directory_bruteforce`): precondition: the alive file
exists; write the built-in wordlist; fail on a blank first alive line;
otherwise build the fuzz target from the first line, run ffuf, and count the
entries under the `results` key of its JSON output. -/
def run_directory_bruteforce (r : WebSecurityRecon) (env : Env) (fs : FS) : StepOut :=
  let header := "\n[9/9] Running ffuf directory bruteforce"
  match fs.read r.alive_file with
  | none =>
    { ok := false, calls := [], writes := [], fs := fs,
      prints := [header, "    ✗ alive.txt not found"] }
  | some fd =>
    let fs1 := fs.write (wordlistFile r) { lines := common_dirs }
    let first_url := pyStrip (fd.lines.headD "")
    if first_url = "" then
      { ok := false, calls := [], writes := [(wordlistFile r, { lines := common_dirs })],
        fs := fs1, prints := [header, "    ✗ No URL in alive.txt"] }
    else
      let base_url := fuzzTarget first_url
      let res := env.exec (ffufCmd r base_url) fs1
      if res.1 then
        match (res.2).read r.ffuf_file with
        | none =>
          { ok := false, calls := [ffufCmd r base_url],
            writes := [(wordlistFile r, { lines := common_dirs })], fs := res.2,
            prints := [header, "    ✗ ffuf output not found"] }
        | some fd2 =>
          match jsonResultsCount fd2.json? with
          | some n =>
            { ok := true, calls := [ffufCmd r base_url],
              writes := [(wordlistFile r, { lines := common_dirs })], fs := res.2,
              prints := [header, "    ✓ Found " ++ toString n ++ " valid paths"] }
          | none =>
            { ok := false, calls := [ffufCmd r base_url],
              writes := [(wordlistFile r, { lines := common_dirs })], fs := res.2,
              prints := [header, "    ✗ ffuf failed"] }
      else
        { ok := false, calls := [ffufCmd r base_url],
          writes := [(wordlistFile r, { lines := common_dirs })], fs := res.2,
          prints := [header, "    ✗ ffuf failed"] }

/-- Ordered step table of `start` (step name paired with the step
function). -/
def stepList : List (String × (WebSecurityRecon → Env → FS → StepOut)) :=
  [("run_subfinder", run_subfinder),
   ("run_httpx", run_httpx),
   ("run_waybackurls", run_waybackurls),
   ("run_gau", run_gau),
   ("run_katana_crawl", run_katana_crawl),
   ("extract_js_files", run_extract_js),
   ("run_nuclei_scan", run_nuclei_scan),
   ("run_subdomain_takeover", run_subdomain_takeover),
   ("run_directory_bruteforce", run_directory_bruteforce)]

/-- Observable outcome of a whole run: names of the steps the loop executed,
console output, external commands invoked, final filesystem. -/
structure RunOut where
  stepsRun : List String
  prints : List String
  calls : List (List String)
  fs : FS

/-- Step loop of `start`: run each step on the filesystem left by the
previous one; after a failed step print a note and continue. -/
def runSteps (r : WebSecurityRecon) (env : Env) :
    List (String × (WebSecurityRecon → Env → FS → StepOut)) → FS → RunOut
  | [], fs => { stepsRun := [], prints := [], calls := [], fs := fs }
  | (name, f) :: rest, fs =>
    let out := f r env fs
    let tail := runSteps r env rest out.fs
    { stepsRun := name :: tail.stepsRun,
      prints := out.prints ++
        (if out.ok then [] else ["[!] Step " ++ name ++ " failed or was skipped."]) ++
        tail.prints,
      calls := out.calls ++ tail.calls,
      fs := tail.fs }

/-- Decorative start-up banner of `print_banner`, kept as one string. -/
def bannerText : String :=
  "\nWeb Security Recon Tool\nComprehensive Bug Hunting Suite\n"

/-- Completion banner line. -/
def doneMsg : String := "\n[✓] Web Security Recon Complete!"

/-- Completion line naming the workspace path. -/
def savedMsg (r : WebSecurityRecon) : String :=
  "[+] All results saved in: " ++ r.output_dir

/-- Entry point `start`: print the banner, run the dependency check and
return early when it fails; otherwise run the nine steps in order and print
the completion banner. -/
def start (r : WebSecurityRecon) (env : Env) (fs : FS) : RunOut :=
  let dep := check_dependencies env
  if dep.1 then
    let t := runSteps r env stepList fs
    { stepsRun := t.stepsRun,
      prints := (bannerText :: dep.2) ++ t.prints ++ [doneMsg, savedMsg r],
      calls := t.calls, fs := t.fs }
  else
    { stepsRun := [], prints := bannerText :: dep.2, calls := [], fs := fs }

/-- Example configuration for concrete witnesses: default output directory
and thread count, domain `example.com`. -/
def recon0 : WebSecurityRecon := { domain := "example.com" }

/-- Environment in which every tool probe succeeds and every external
process exits successfully without touching the filesystem. -/
def envAllPresent : Env :=
  { toolOutcome := fun _ => InvokeOutcome.success, exec := fun _ fs => (true, fs) }

/-- Environment in which every tool probe raises `FileNotFoundError`. -/
def envAllMissing : Env :=
  { toolOutcome := fun _ => InvokeOutcome.fileNotFound, exec := fun _ fs => (true, fs) }

/-- Filesystem holding only an empty alive-host file at the default
workspace path. -/
def fsAliveEmpty : FS := [("web_recon/alive.txt", { lines := [] })]

/-- Filesystem holding an alive-host file whose first line is a typical
httpx output line. -/
def fsAliveOne : FS :=
  [("web_recon/alive.txt", { lines := ["https://example.com [200] Title"] })]

/-- Contents of a ffuf results file whose bytes parse as the JSON object
with no fields at all (in particular no `results` key). -/
def ffufObjFile : FileData := { lines := [], json? := some (JVal.obj []) }

/-- Environment in which every external process succeeds and writes the
empty-object ffuf results file at the default workspace path. -/
def envFfufObj : Env :=
  { toolOutcome := fun _ => InvokeOutcome.success,
    exec := fun _ fs => (true, FS.write fs "web_recon/ffuf_results.json" ffufObjFile) }

theorem dropTrailing_eq_nil {q : Char → Bool} :
    ∀ {l : List Char}, dropTrailing q l = [] → ∀ c ∈ l, q c = true := by
  intro l
  induction l with
  | nil => intro _ c hc; cases hc
  | cons c cs ih =>
    intro h x hx
    cases hd : dropTrailing q cs with
    | nil =>
      by_cases hq : q c
      · rcases List.mem_cons.mp hx with h2 | h2
        · rw [h2]; exact hq
        · exact ih hd x h2
      · simp [dropTrailing, hd, hq] at h
    | cons a as => simp [dropTrailing, hd] at h

theorem takeWhile_eq_nil_of_all {p : Char → Bool} {l : List Char}
    (h : ∀ c ∈ l, p c = false) : l.takeWhile p = [] := by
  cases l with
  | nil => rfl
  | cons c cs => simp [List.takeWhile_cons, h c (by simp)]

theorem takeWhile_dropTrailing {p q : Char → Bool} (hpq : ∀ c, q c = true → p c = false) :
    ∀ l : List Char, (dropTrailing q l).takeWhile p = l.takeWhile p := by
  intro l
  induction l with
  | nil => rfl
  | cons c cs ih =>
    cases hd : dropTrailing q cs with
    | nil =>
      have hall := dropTrailing_eq_nil hd
      have hcs : cs.takeWhile p = [] :=
        takeWhile_eq_nil_of_all (fun x hx => hpq x (hall x hx))
      by_cases hq : q c
      · have hpc := hpq c hq
        simp [dropTrailing, hd, hq, List.takeWhile_cons, hpc]
      · have h1 : dropTrailing q (c :: cs) = [c] := by simp [dropTrailing, hd, hq]
        rw [h1]
        simp [List.takeWhile_cons, hcs]
    | cons a as =>
      have h1 : dropTrailing q (c :: cs) = c :: a :: as := by simp [dropTrailing, hd]
      have h2 : List.takeWhile p (a :: as) = List.takeWhile p cs := by rw [← hd]; exact ih
      rw [h1]
      simp [List.takeWhile_cons, h2]

theorem takeWhile_append_all {p : Char → Bool} {l1 : List Char}
    (h : ∀ c ∈ l1, p c = true) (l2 : List Char) :
    (l1 ++ l2).takeWhile p = l1 ++ l2.takeWhile p := by
  induction l1 with
  | nil => simp
  | cons c cs ih =>
    have hc := h c (by simp)
    have ih2 := ih (fun x hx => h x (by simp [hx]))
    simp [List.takeWhile_cons, hc, ih2]

theorem dropTrailing_cons_of_neg {q : Char → Bool} {c : Char} (hc : q c = false)
    (cs : List Char) : ∃ r, dropTrailing q (c :: cs) = c :: r := by
  cases hd : dropTrailing q cs with
  | nil => exact ⟨[], by simp [dropTrailing, hd, hc]⟩
  | cons a as => exact ⟨a :: as, by simp [dropTrailing, hd]⟩

theorem splitAtColon_https (rest : List Char) :
    splitAtColon ('h' :: 't' :: 't' :: 'p' :: 's' :: ':' :: rest) =
      some (['h', 't', 't', 'p', 's'], rest) := by
  simp [splitAtColon]

theorem runSteps_stepsRun (r : WebSecurityRecon) (env : Env) (fs : FS) :
    (runSteps r env stepList fs).stepsRun =
      ["run_subfinder", "run_httpx", "run_waybackurls", "run_gau", "run_katana_crawl",
       "extract_js_files", "run_nuclei_scan", "run_subdomain_takeover",
       "run_directory_bruteforce"] := rfl


theorem bruteforce_writes_eq (r : WebSecurityRecon) (env : Env) (fs : FS) (fd : FileData)
    (h : fs.read r.alive_file = some fd) :
    (run_directory_bruteforce r env fs).writes =
      [(wordlistFile r, { lines := common_dirs })] := by
  unfold run_directory_bruteforce
  rw [h]
  dsimp only []
  by_cases hfu : pyStrip (fd.lines.headD "") = ""
  · rw [if_pos hfu]
  · rw [if_neg hfu]
    rcases hE : env.exec (ffufCmd r (fuzzTarget (pyStrip (fd.lines.headD ""))))
      (fs.write (wordlistFile r) { lines := common_dirs }) with ⟨okE, fs2⟩
    dsimp only []
    cases okE
    · rfl
    · rw [if_pos rfl]
      cases hR : fs2.read r.ffuf_file with
      | none => rfl
      | some fd2 =>
        dsimp only []
        cases hj : jsonResultsCount fd2.json? with
        | none => rfl
        | some n => rfl

/-- C8: for every tool name, a help-invocation failure (process not found or
non-zero exit) makes `check_tool_installed` return `false`, and the checker
returns `true` only on a successful probe; it is a total boolean function of
the probe outcome, so no invocation outcome escapes it. -/
theorem check_tool_failure_means_not_installed (env : Env) (tool : String) :
    (check_tool_installed env tool = true ↔ env.toolOutcome tool = InvokeOutcome.success) ∧
    (check_tool_installed env tool = false ↔
      (env.toolOutcome tool = InvokeOutcome.calledProcessError ∨
       env.toolOutcome tool = InvokeOutcome.fileNotFound)) := by
  cases h : env.toolOutcome tool <;> simp [check_tool_installed, h]

/-- C4: each step with a declared precondition file (httpx needs the
subdomain file; katana, nuclei and ffuf need the alive file; subjack needs
the subdomain file) reports failure and invokes no external command when
that file is missing. -/
theorem precondition_gating (r : WebSecurityRecon) (env : Env) (fs : FS) :
    (fs.read r.subdomain_file = none →
      (run_httpx r env fs).ok = false ∧ (run_httpx r env fs).calls = []) ∧
    (fs.read r.alive_file = none →
      (run_katana_crawl r env fs).ok = false ∧ (run_katana_crawl r env fs).calls = []) ∧
    (fs.read r.alive_file = none →
      (run_nuclei_scan r env fs).ok = false ∧ (run_nuclei_scan r env fs).calls = []) ∧
    (fs.read r.subdomain_file = none →
      (run_subdomain_takeover r env fs).ok = false ∧
        (run_subdomain_takeover r env fs).calls = []) ∧
    (fs.read r.alive_file = none →
      (run_directory_bruteforce r env fs).ok = false ∧
        (run_directory_bruteforce r env fs).calls = []) := by
  refine ⟨fun h => ?_, fun h => ?_, fun h => ?_, fun h => ?_, fun h => ?_⟩ <;>
    simp [run_httpx, run_katana_crawl, run_nuclei_scan, run_subdomain_takeover,
      run_directory_bruteforce, h]

/-- Witness for C4 at a concrete input: the empty filesystem has neither
precondition file, and all five gated steps fail without invoking their
tools. -/
theorem precondition_gating_witness :
    ((run_httpx recon0 envAllPresent []).ok = false ∧
      (run_httpx recon0 envAllPresent []).calls = []) ∧
    ((run_katana_crawl recon0 envAllPresent []).ok = false ∧
      (run_katana_crawl recon0 envAllPresent []).calls = []) ∧
    ((run_nuclei_scan recon0 envAllPresent []).ok = false ∧
      (run_nuclei_scan recon0 envAllPresent []).calls = []) ∧
    ((run_subdomain_takeover recon0 envAllPresent []).ok = false ∧
      (run_subdomain_takeover recon0 envAllPresent []).calls = []) ∧
    ((run_directory_bruteforce recon0 envAllPresent []).ok = false ∧
      (run_directory_bruteforce recon0 envAllPresent []).calls = []) := by
  have h := precondition_gating recon0 envAllPresent []
  exact ⟨h.1 rfl, h.2.1 rfl, h.2.2.1 rfl, h.2.2.2.1 rfl, h.2.2.2.2 rfl⟩

/-- C7: whenever the directory brute-force step runs past its precondition
(the alive file exists), the only file the runner itself writes is the
wordlist file, and its content is exactly the fixed constant list of path
segments, one per line, in this order, regardless of environment and
filesystem. -/
theorem wordlist_fixed_content (r : WebSecurityRecon) (env : Env) (fs : FS) (fd : FileData)
    (h : fs.read r.alive_file = some fd) :
    (run_directory_bruteforce r env fs).writes =
      [(wordlistFile r,
        { lines := ["admin", "api", "login", "uploads", "img", "js", "css",
                    "config", ".git", ".env", "dashboard", "assets"] })] := by
  rw [bruteforce_writes_eq r env fs fd h]
  rfl

/-- Witness for C7: concrete run over a filesystem holding an empty alive
file. -/
theorem wordlist_fixed_content_witness :
    (run_directory_bruteforce recon0 envAllPresent fsAliveEmpty).writes =
      [(wordlistFile recon0,
        { lines := ["admin", "api", "login", "uploads", "img", "js", "css",
                    "config", ".git", ".env", "dashboard", "assets"] })] :=
  wordlist_fixed_content recon0 envAllPresent fsAliveEmpty { lines := [] } rfl

/-- C9: whenever the alive file exists, the wordlist write is the first (and
only) runner write of the directory brute-force step — it happens before the
first-line check — and it is present even when the step reports failure. -/
theorem wordlist_written_even_on_failure (r : WebSecurityRecon) (env : Env) (fs : FS)
    (fd : FileData) (h : fs.read r.alive_file = some fd) :
    (run_directory_bruteforce r env fs).writes.head? =
      some (wordlistFile r, { lines := common_dirs }) ∧
    ((run_directory_bruteforce r env fs).ok = false →
      (wordlistFile r, ({ lines := common_dirs } : FileData)) ∈
        (run_directory_bruteforce r env fs).writes) := by
  rw [bruteforce_writes_eq r env fs fd h]
  exact ⟨rfl, fun _ => List.mem_singleton.mpr rfl⟩

/-- Witness for C9: concrete run over a filesystem holding an empty alive
file; the step fails (blank first line) yet the wordlist was written. -/
theorem wordlist_written_even_on_failure_witness :
    (run_directory_bruteforce recon0 envAllPresent fsAliveEmpty).writes.head? =
      some (wordlistFile recon0, { lines := common_dirs }) ∧
    (wordlistFile recon0, ({ lines := common_dirs } : FileData)) ∈
      (run_directory_bruteforce recon0 envAllPresent fsAliveEmpty).writes := by
  have h := wordlist_written_even_on_failure recon0 envAllPresent fsAliveEmpty
    { lines := [] } rfl
  exact ⟨h.1, h.2 rfl⟩

/-- C6: with the alive file present, the directory brute-force step fails
without invoking ffuf when the file is empty or its first line is blank
(stripped first line empty), and it reports failure (rather than raising)
when the ffuf result file it reads back does not parse as JSON. -/
theorem bruteforce_blank_or_unparsable_fails (r : WebSecurityRecon) (env : Env) (fs : FS)
    (fd fd2 : FileData) (h : fs.read r.alive_file = some fd) :
    (pyStrip (fd.lines.headD "") = "" →
      (run_directory_bruteforce r env fs).ok = false ∧
      (run_directory_bruteforce r env fs).calls = []) ∧
    ((env.exec (ffufCmd r (fuzzTarget (pyStrip (fd.lines.headD ""))))
        (fs.write (wordlistFile r) { lines := common_dirs })).2.read r.ffuf_file = some fd2 →
      fd2.json? = none →
      (run_directory_bruteforce r env fs).ok = false) := by
  constructor
  · intro hfu
    unfold run_directory_bruteforce
    rw [h]
    dsimp only []
    rw [if_pos hfu]
    exact ⟨rfl, rfl⟩
  · intro hread hjson
    unfold run_directory_bruteforce
    rw [h]
    dsimp only []
    by_cases hfu : pyStrip (fd.lines.headD "") = ""
    · rw [if_pos hfu]
    · rw [if_neg hfu]
      rcases hE : env.exec (ffufCmd r (fuzzTarget (pyStrip (fd.lines.headD ""))))
        (fs.write (wordlistFile r) { lines := common_dirs }) with ⟨okE, fs2⟩
      rw [hE] at hread
      dsimp only [] at hread ⊢
      cases okE
      · rfl
      · rw [if_pos rfl, hread]
        dsimp only []
        rw [hjson]
        rfl

/-- Witness for C6 at a concrete input: empty alive file, so the first line
is blank and the step fails with no ffuf call. -/
theorem bruteforce_blank_or_unparsable_fails_witness :
    (run_directory_bruteforce recon0 envAllPresent fsAliveEmpty).ok = false ∧
    (run_directory_bruteforce recon0 envAllPresent fsAliveEmpty).calls = [] := by
  have h := bruteforce_blank_or_unparsable_fails recon0 envAllPresent fsAliveEmpty
    { lines := [] } { lines := [] } rfl
  exact h.1 rfl

/-- C10: when the ffuf result file exists and parses as a JSON object with
no `results` key, the step counts zero results, prints the zero-count
success line and returns success. -/
theorem bruteforce_missing_results_key_success (r : WebSecurityRecon) (env : Env)
    (fs fs2 : FS) (fd fd2 : FileData) (fields : List (String × JVal))
    (h : fs.read r.alive_file = some fd)
    (hfu : pyStrip (fd.lines.headD "") ≠ "")
    (hE : env.exec (ffufCmd r (fuzzTarget (pyStrip (fd.lines.headD ""))))
      (fs.write (wordlistFile r) { lines := common_dirs }) = (true, fs2))
    (hread : fs2.read r.ffuf_file = some fd2)
    (hjson : fd2.json? = some (JVal.obj fields))
    (hkey : lookupJson "results" fields = none) :
    (run_directory_bruteforce r env fs).ok = true ∧
    "    ✓ Found 0 valid paths" ∈ (run_directory_bruteforce r env fs).prints := by
  unfold run_directory_bruteforce
  rw [h]
  dsimp only []
  rw [if_neg hfu, hE]
  dsimp only []
  rw [if_pos rfl, hread]
  dsimp only []
  rw [hjson, show jsonResultsCount (some (JVal.obj fields)) = some 0 from by
    simp [jsonResultsCount, hkey]]
  dsimp only []
  exact ⟨rfl, by decide⟩

/-- Witness for C10 at a concrete input: alive file with one httpx line, an
environment whose ffuf writes an empty JSON object result file. -/
theorem bruteforce_missing_results_key_success_witness :
    (run_directory_bruteforce recon0 envFfufObj fsAliveOne).ok = true ∧
    "    ✓ Found 0 valid paths" ∈
      (run_directory_bruteforce recon0 envFfufObj fsAliveOne).prints := by
  exact bruteforce_missing_results_key_success recon0 envFfufObj fsAliveOne
    (FS.write (FS.write fsAliveOne (wordlistFile recon0) { lines := common_dirs })
      "web_recon/ffuf_results.json" ffufObjFile)
    { lines := ["https://example.com [200] Title"] } ffufObjFile []
    rfl (by decide) rfl rfl rfl rfl

/-- C1 counterexample: with every tool probe failing (an outcome of the
startup availability check), the runner returns right after the dependency
report — it attempts none of the nine pipeline steps and invokes no external
command, refuting the claim that the check is purely advisory. -/
theorem dependency_check_blocks_when_tools_missing :
    (check_dependencies envAllMissing).1 = false ∧
    (start recon0 envAllMissing []).stepsRun = [] ∧
    (start recon0 envAllMissing []).calls = [] := by
  exact ⟨rfl, rfl, rfl⟩

/-- C1 amended: the dependency check gates execution — the runner attempts
the nine steps exactly when every required tool is present, and attempts
none of them when any tool is missing. -/
theorem dependency_check_gates_pipeline (r : WebSecurityRecon) (env : Env) (fs : FS) :
    (start r env fs).stepsRun =
      (if (check_dependencies env).1 then
        ["run_subfinder", "run_httpx", "run_waybackurls", "run_gau", "run_katana_crawl",
         "extract_js_files", "run_nuclei_scan", "run_subdomain_takeover",
         "run_directory_bruteforce"]
      else []) := by
  by_cases h : (check_dependencies env).1
  · rw [if_pos h]
    unfold start
    rw [if_pos h]
    exact runSteps_stepsRun r env fs
  · rw [if_neg h]
    unfold start
    rw [if_neg h]

/-- C2: once the step loop is reached (dependency check passed), every step
is attempted in the fixed order regardless of any step outcome, and the run
ends with the completion banner naming the workspace path. -/
theorem continue_on_error (r : WebSecurityRecon) (env : Env) (fs : FS)
    (h : (check_dependencies env).1 = true) :
    (start r env fs).stepsRun =
      ["run_subfinder", "run_httpx", "run_waybackurls", "run_gau", "run_katana_crawl",
       "extract_js_files", "run_nuclei_scan", "run_subdomain_takeover",
       "run_directory_bruteforce"] ∧
    (start r env fs).prints.reverse.take 2 = [savedMsg r, doneMsg] := by
  constructor
  · unfold start
    rw [if_pos h]
    exact runSteps_stepsRun r env fs
  · unfold start
    rw [if_pos h]
    dsimp only []
    rw [show (bannerText :: (check_dependencies env).2) ++
        (runSteps r env stepList fs).prints ++ [doneMsg, savedMsg r] =
        ((bannerText :: (check_dependencies env).2) ++
          (runSteps r env stepList fs).prints) ++ [doneMsg, savedMsg r] from by
      rw [List.append_assoc]]
    rw [List.reverse_append]
    rfl

/-- Witness for C2 at a concrete input: all tools present, empty
filesystem. -/
theorem continue_on_error_witness :
    (start recon0 envAllPresent []).stepsRun =
      ["run_subfinder", "run_httpx", "run_waybackurls", "run_gau", "run_katana_crawl",
       "extract_js_files", "run_nuclei_scan", "run_subdomain_takeover",
       "run_directory_bruteforce"] ∧
    (start recon0 envAllPresent []).prints.reverse.take 2 =
      [savedMsg recon0, doneMsg] :=
  continue_on_error recon0 envAllPresent [] rfl

theorem mem_jsUrlSet (kat way : List String) (u : String) :
    u ∈ jsUrlSet (some kat) (some way) ↔
      ∃ l, (l ∈ kat ∨ l ∈ way) ∧ hasJsMarker l = true ∧ u = pyStrip l := by
  simp only [jsUrlSet, jsMatches, List.mem_dedup, List.mem_append, List.mem_map,
    List.mem_filter]
  constructor
  · rintro (⟨l, ⟨hl, hm⟩, rfl⟩ | ⟨l, ⟨hl, hm⟩, rfl⟩)
    · exact ⟨l, Or.inl hl, hm, rfl⟩
    · exact ⟨l, Or.inr hl, hm, rfl⟩
  · rintro ⟨l, hl | hl, hm, rfl⟩
    · exact Or.inl ⟨l, ⟨hl, hm⟩, rfl⟩
    · exact Or.inr ⟨l, ⟨hl, hm⟩, rfl⟩

theorem jsUrlSet_eq_nil (kat way : List String) :
    jsUrlSet (some kat) (some way) = [] ↔
      ∀ l, (l ∈ kat ∨ l ∈ way) → hasJsMarker l = false := by
  constructor
  · intro h l hl
    by_contra hm
    have hmem : pyStrip l ∈ jsUrlSet (some kat) (some way) :=
      (mem_jsUrlSet kat way (pyStrip l)).mpr
        ⟨l, hl, eq_true_of_ne_false (fun hf => hm hf), rfl⟩
    rw [h] at hmem
    cases hmem
  · intro h
    by_contra hne
    rcases List.exists_mem_of_ne_nil _ hne with ⟨u, hu⟩
    rcases (mem_jsUrlSet kat way u).mp hu with ⟨l, hl, hm, _⟩
    rw [h l hl] at hm
    cases hm

/-- C3: the JavaScript-URL extraction produces exactly the set of stripped
matching lines of the two source files (a line matches when its text
contains `.js` or `/js/`), with no duplicates, sorted; the collected set is
empty exactly when no source line matches, and in that case the step
reports failure and writes nothing (for a non-empty set it writes the
sorted list to the JS file and reports success). -/
theorem extract_js_spec (kat way : List String) (r : WebSecurityRecon) (env : Env)
    (fs : FS) :
    (∀ u, (∃ out, extract_js_files (some kat) (some way) = some out ∧ u ∈ out) ↔
      ∃ l, (l ∈ kat ∨ l ∈ way) ∧ hasJsMarker l = true ∧ u = pyStrip l) ∧
    (∀ out, extract_js_files (some kat) (some way) = some out →
      out.Sorted (fun a b => a ≤ b) ∧ out.Nodup) ∧
    (extract_js_files (some kat) (some way) = none ↔
      ∀ l, (l ∈ kat ∨ l ∈ way) → hasJsMarker l = false) ∧
    ((run_extract_js r env fs).ok = false →
      (run_extract_js r env fs).writes = [] ∧ (run_extract_js r env fs).fs = fs) ∧
    (∀ out, extract_js_files ((fs.read r.katana_file).map FileData.lines)
        ((fs.read r.wayback_file).map FileData.lines) = some out →
      (run_extract_js r env fs).ok = true ∧
      (run_extract_js r env fs).writes = [(r.js_files, { lines := out })]) := by
  have hext : ∀ out, extract_js_files (some kat) (some way) = some out →
      out = (jsUrlSet (some kat) (some way)).insertionSort (fun a b => a ≤ b) := by
    intro out hout
    unfold extract_js_files at hout
    by_cases hnil : (jsUrlSet (some kat) (some way)).isEmpty
    · rw [if_pos hnil] at hout; cases hout
    · rw [if_neg hnil] at hout
      injection hout with hout
      exact hout.symm
  refine ⟨?_, ?_, ?_, ?_, ?_⟩
  · intro u
    constructor
    · rintro ⟨out, hout, hu⟩
      rw [hext out hout] at hu
      exact (mem_jsUrlSet kat way u).mp ((List.mem_insertionSort (fun a b => a ≤ b)).mp hu)
    · intro h
      have hmem : u ∈ jsUrlSet (some kat) (some way) := (mem_jsUrlSet kat way u).mpr h
      have hnil : (jsUrlSet (some kat) (some way)).isEmpty = false := by
        rcases hjs : jsUrlSet (some kat) (some way) with _ | ⟨a, as⟩
        · rw [hjs] at hmem; cases hmem
        · rfl
      refine ⟨(jsUrlSet (some kat) (some way)).insertionSort (fun a b => a ≤ b), ?_, ?_⟩
      · unfold extract_js_files
        rw [hnil]
        rfl
      · exact (List.mem_insertionSort (fun a b => a ≤ b)).mpr hmem
  · intro out hout
    rw [hext out hout]
    constructor
    · exact List.sorted_insertionSort (fun a b => a ≤ b) (jsUrlSet (some kat) (some way))
    · refine ((List.perm_insertionSort (fun a b => a ≤ b) _).nodup_iff).mpr ?_
      show (jsUrlSet (some kat) (some way)).Nodup
      exact List.nodup_dedup _
  · constructor
    · intro h
      apply (jsUrlSet_eq_nil kat way).mp
      by_contra hne
      have hnil : (jsUrlSet (some kat) (some way)).isEmpty = false := by
        rcases hjs : jsUrlSet (some kat) (some way) with _ | ⟨a, as⟩
        · exact absurd hjs hne
        · rfl
      unfold extract_js_files at h
      rw [hnil] at h
      cases h
    · intro h
      have hnil := (jsUrlSet_eq_nil kat way).mpr h
      unfold extract_js_files
      rw [hnil]
      rfl
  · rw [run_extract_js]
    cases hE : extract_js_files ((fs.read r.katana_file).map FileData.lines)
        ((fs.read r.wayback_file).map FileData.lines) with
    | none => intro _; exact ⟨rfl, rfl⟩
    | some urls => intro hok; cases hok
  · intro out hout
    rw [run_extract_js, hout]
    exact ⟨rfl, rfl⟩

/-- Witness for C3 at a concrete input: with neither source file present the
collected set is empty, the step fails, and it writes nothing. -/
theorem extract_js_spec_witness :
    (run_extract_js recon0 envAllPresent []).writes = [] ∧
    (run_extract_js recon0 envAllPresent []).fs = [] :=
  (extract_js_spec ["app.js"] [] recon0 envAllPresent []).2.2.2.1 rfl

theorem dropWhile_head_false (p : Char → Bool) (l : List Char) :
    List.dropWhile p l = [] ∨
      ∃ c cs, List.dropWhile p l = c :: cs ∧ p c = false := by
  induction l with
  | nil => exact Or.inl rfl
  | cons c cs ih =>
    by_cases hc : p c
    · simpa [List.dropWhile_cons, hc] using ih
    · refine Or.inr ⟨c, cs, by simp [List.dropWhile_cons, hc], by simpa using hc⟩

theorem pySplitHead_pyStrip (s : String) : pySplitHead (pyStrip s) = pySplitHead s := by
  unfold pySplitHead pyStrip
  rcases dropWhile_head_false Char.isWhitespace s.data with h | ⟨c, cs, h, hc⟩
  · rw [h]
    rfl
  · rw [h]
    obtain ⟨rr, hrr⟩ := dropTrailing_cons_of_neg hc cs
    show (⟨List.takeWhile _ (List.dropWhile _ (dropTrailing _ (c :: cs)))⟩ : String) = _
    rw [hrr, List.dropWhile_cons_of_neg (by simp [hc]), ← hrr,
      takeWhile_dropTrailing (fun x hx => by simp [hx]) (c :: cs)]

theorem token_of_https_line (host tail : String)
    (hh : ∀ c ∈ host.data, c.isWhitespace = false ∧ netlocEnd c = false) :
    pySplitHead (pyStrip ("https://" ++ host ++ tail))
      = ⟨'h' :: 't' :: 't' :: 'p' :: 's' :: ':' :: '/' :: '/' ::
          (host.data ++ List.takeWhile (fun c => !c.isWhitespace) tail.data)⟩ := by
  have hdata : ("https://" ++ host ++ tail).data
      = 'h' :: 't' :: 't' :: 'p' :: 's' :: ':' :: '/' :: '/' ::(host.data ++ tail.data) := by
    show ("https://".data ++ host.data) ++ tail.data = _
    rw [List.append_assoc]
    rfl
  have htw : List.takeWhile (fun c => !c.isWhitespace)
      ('h' :: 't' :: 't' :: 'p' :: 's' :: ':' :: '/' :: '/' ::(host.data ++ tail.data))
      = 'h' :: 't' :: 't' :: 'p' :: 's' :: ':' :: '/' :: '/' ::
          (host.data ++ List.takeWhile (fun c => !c.isWhitespace) tail.data) := by
    rw [show ('h' :: 't' :: 't' :: 'p' :: 's' :: ':' :: '/' :: '/' ::(host.data ++ tail.data))
        = ('h' :: 't' :: 't' :: 'p' :: 's' :: ':' :: '/' :: '/' ::[]) ++ (host.data ++ tail.data) from rfl]
    rw [takeWhile_append_all (by decide) (host.data ++ tail.data)]
    rw [takeWhile_append_all (fun c hc => by simp [(hh c hc).1]) tail.data]
    rfl
  rw [pySplitHead_pyStrip]
  unfold pySplitHead
  rw [hdata, List.dropWhile_cons_of_neg (by simp), htw]

theorem urlparse_https_token (host : String) (T : List Char)
    (hhost : ∀ c ∈ host.data, netlocEnd c = false)
    (hT : T = [] ∨ ∃ c cs, T = c :: cs ∧ netlocEnd c = true) :
    urlparse ⟨'h' :: 't' :: 't' :: 'p' :: 's' :: ':' :: '/' :: '/' ::(host.data ++ T)⟩
      = { scheme := "https", netloc := host } := by
  unfold urlparse
  rw [show (⟨'h' :: 't' :: 't' :: 'p' :: 's' :: ':' :: '/' :: '/' ::(host.data ++ T)⟩ : String).data
      = 'h' :: 't' :: 't' :: 'p' :: 's' :: ':' :: '/' :: '/' ::(host.data ++ T) from rfl]
  rw [splitAtColon_https]
  dsimp only []
  rw [if_pos (by decide)]
  rw [show netlocOf ('/' :: '/' ::(host.data ++ T))
      = List.takeWhile (fun c => !netlocEnd c) (host.data ++ T) from rfl]
  rw [takeWhile_append_all (fun c hc => by simp [hhost c hc]) T]
  rcases hT with rfl | ⟨c, cs, rfl, hc⟩
  · rw [show List.takeWhile (fun c => !netlocEnd c) ([] : List Char) = [] from rfl,
      List.append_nil]
    rfl
  · rw [List.takeWhile_cons_of_neg (by simp [hc]), List.append_nil]
    rfl

/-- C5: for an alive-host first line of the shape URL-plus-metadata, with
the URL of the form `https://` followed by a host part (no whitespace, no
`/`, `?`, `#`), followed either by nothing, by whitespace-separated
metadata, or by a path/query part opening with `/`, `?` or `#`, the derived
fuzz target of the brute-force step is exactly `https://host/FUZZ`: scheme
and host kept, path and query discarded, `/FUZZ` appended. -/
theorem bruteforce_fuzz_target (host tail : String)
    (hh : ∀ c ∈ host.data, c.isWhitespace = false ∧ netlocEnd c = false)
    (ht : tail.data = [] ∨ ∃ c cs, tail.data = c :: cs ∧
        (c.isWhitespace = true ∨ netlocEnd c = true)) :
    fuzzTarget (pyStrip ("https://" ++ host ++ tail)) = "https://" ++ host ++ "/FUZZ" := by
  have htok := token_of_https_line host tail hh
  have hT : List.takeWhile (fun c => !c.isWhitespace) tail.data = [] ∨
      ∃ c cs, List.takeWhile (fun c => !c.isWhitespace) tail.data = c :: cs ∧
        netlocEnd c = true := by
    rcases ht with h0 | ⟨c, cs, hc, hcw | hcn⟩
    · rw [h0]
      exact Or.inl rfl
    · rw [hc, List.takeWhile_cons_of_neg (by simp [hcw])]
      exact Or.inl rfl
    · have hcw : c.isWhitespace = false := by
        have hor : (c = '/' ∨ c = '?') ∨ c = '#' := by
          simpa [netlocEnd, Bool.or_eq_true, decide_eq_true_eq] using hcn
        rcases hor with (rfl | rfl) | rfl <;> decide
      rw [hc, List.takeWhile_cons_of_pos (by simp [hcw])]
      exact Or.inr ⟨c, _, rfl, hcn⟩
  unfold fuzzTarget
  rw [htok, urlparse_https_token host _ (fun c hc => (hh c hc).2) hT]
  rfl

/-- Witness for C5 at the concrete line of the claim:
`https://example.com [200] Title` yields `https://example.com/FUZZ`. -/
theorem bruteforce_fuzz_target_witness :
    fuzzTarget (pyStrip ("https://" ++ "example.com" ++ " [200] Title"))
      = "https://" ++ "example.com" ++ "/FUZZ" :=
  bruteforce_fuzz_target "example.com" " [200] Title" (by decide)
    (Or.inr ⟨' ', "[200] Title".data, rfl, Or.inl (by decide)⟩)
